import Mathlib

/-!
Verification of the query-understanding / grounded-evidence pipeline of the
Ai_health_agent repository, shallowly embedded in Lean 4.

Conventions of the embedding:
* Python strings that may be `None` are modelled as `Option String`; Python
  truthiness of a string (`None` and `""` are falsy) is the predicate
  "is `some s` with `s ≠ \"\"`".
* Python `float` arithmetic on the score values (products of the integers
  involved with the constants 0.4/0.6) is modelled exactly over `ℚ`.
* The database session is modelled as the list of `Patient` rows; SQLAlchemy
  `ilike` is modelled as case-insensitive LIKE matching (with the `_`
  single-character wildcard, the only wildcard that can occur in a candidate
  name extracted by `\w+`).
* `re.search` over the fixed pattern tables of `query_classifier.py` and
  `synthetic_reasoner.py` is abstracted as a parameter
  `re_search : String → String → Bool` (pattern, text); the control flow
  around it is translated literally from the source.
* `datetime.now()` is passed explicitly as a `DateT` parameter.
-/

namespace AiHealthAgent

/-! ## String primitives

Python's `str.lower` / `str.strip` and substring tests are modelled on the
character list underlying a `String`, so that every definition evaluates by
kernel reduction.  All texts handled by the pipeline are ASCII; on ASCII,
`Char.toLower` agrees with Python `str.lower` and `Char.isWhitespace` with the
characters removed by `str.strip`. -/

/-- Python `s.lower()`. -/
def py_lower (s : String) : String := ⟨s.data.map Char.toLower⟩

/-- Python `s.strip()`. -/
def py_strip (s : String) : String :=
  ⟨((s.data.dropWhile Char.isWhitespace).reverse.dropWhile Char.isWhitespace).reverse⟩

/-- Prefix test on character lists. -/
def chars_startswith : List Char → List Char → Bool
  | [], _ => true
  | _ :: _, [] => false
  | a :: as, b :: bs => a == b && chars_startswith as bs

/-- Contiguous-substring test on character lists (Python `needle in hay`). -/
def chars_contains_sub (needle : List Char) : List Char → Bool
  | [] => chars_startswith needle []
  | c :: cs => chars_startswith needle (c :: cs) || chars_contains_sub needle cs

/-- Python `needle in hay` on strings. -/
def py_in (needle hay : String) : Bool := chars_contains_sub needle.data hay.data

/-! ## utils/response_builder.py -/

/-- `ConfidenceLevel` enum of `response_builder.py`. -/
inductive ConfidenceLevel where
  | HIGH
  | MEDIUM
  | LOW
deriving DecidableEq, Repr

/-- `.value` of a `ConfidenceLevel` member (the enum derives from `str`). -/
def ConfidenceLevel.value : ConfidenceLevel → String
  | .HIGH => "High"
  | .MEDIUM => "Medium"
  | .LOW => "Low"

/-- `ResponseType` enum of `response_builder.py`. -/
inductive ResponseType where
  | FACTUAL
  | SUMMARY_HIT
  | SUMMARY_MISS
  | COMPLEX
  | SEVERITY_ASSESSMENT
  | REFUSAL
deriving DecidableEq, Repr

/-- `CONFIDENCE_MAP` of `response_builder.py`.  The dict is keyed by the six
`ResponseType` members, so as a total function no default is ever needed
(`CONFIDENCE_MAP.get(response_type, LOW)` in `build_response` always hits). -/
def CONFIDENCE_MAP : ResponseType → ConfidenceLevel
  | .FACTUAL => .HIGH
  | .SUMMARY_HIT => .HIGH
  | .SUMMARY_MISS => .MEDIUM
  | .COMPLEX => .MEDIUM
  | .SEVERITY_ASSESSMENT => .MEDIUM
  | .REFUSAL => .LOW

/-- The dict built by `build_response` (and validated into `ChatResponse`). -/
structure ResponseDict where
  answer : String
  confidence : String
  evidence : List String
  timing_ms : Option ℚ
deriving DecidableEq, Repr

/-- `build_response` of `response_builder.py`. -/
def build_response (answer : String) (response_type : ResponseType)
    (evidence : List String) (timing_ms : Option ℚ) : ResponseDict :=
  let confidence := CONFIDENCE_MAP response_type
  { answer := answer
    confidence := confidence.value
    evidence := evidence
    timing_ms := timing_ms }

/-- `EvidenceSource` constants of `response_builder.py` (the ones used by the
refusal and COMPLEX paths). -/
def EvidenceSource.INSUFFICIENT_DATA : String := "insufficient data for analysis"

def EvidenceSource.PATIENT_HISTORY : String :=
  "patient_history (weighted: recency + clinical signals)"

def EvidenceSource.TREND_ANALYSIS : String := "trend_analysis"

def EvidenceSource.GENDER_MISMATCH : String := "pronoun gender mismatch"

def EvidenceSource.PATIENT_NOT_FOUND : String := "patient not found in database"

def EvidenceSource.AMBIGUOUS_REFERENCE : String := "ambiguous patient reference"

def EvidenceSource.NO_CONTEXT : String := "no prior patient context"

/-- `get_refusal_evidence` of `response_builder.py`. -/
def get_refusal_evidence (reason : String) : List String :=
  if reason = "GENDER_MISMATCH" then [EvidenceSource.GENDER_MISMATCH]
  else if reason = "NO_CONTEXT" then [EvidenceSource.NO_CONTEXT]
  else if reason = "PATIENT_NOT_FOUND" then [EvidenceSource.PATIENT_NOT_FOUND]
  else if reason = "INSUFFICIENT_DATA" then [EvidenceSource.INSUFFICIENT_DATA]
  else if reason = "AMBIGUOUS" then [EvidenceSource.AMBIGUOUS_REFERENCE]
  else [EvidenceSource.INSUFFICIENT_DATA]

/-- `get_complex_evidence` of `response_builder.py`. -/
def get_complex_evidence : List String :=
  [EvidenceSource.PATIENT_HISTORY, EvidenceSource.TREND_ANALYSIS]

/-! ## api/chat.py — tail of the COMPLEX branch (lines 307-338)

The external generator (`app.llm.mistral.generate`) either raises (any
`Exception`, modelled as `Except.error`) or returns a string.  It is modelled
as a stream `gen : ℕ → Except ε String` of outcomes of successive calls, so
that "no retry is attempted" is expressible: the code consumes only `gen 0`.
`elapsed_ms` is recomputed from the wall clock at each return site in the
source; it is abstracted by a single parameter here. -/

def chat_complex_generation {ε : Type} (gen : ℕ → Except ε String)
    (elapsed_ms : ℚ) : ResponseDict :=
  match gen 0 with
  | .error _ =>
      build_response "I am unable to generate a response at the moment."
        .REFUSAL (get_refusal_evidence "INSUFFICIENT_DATA") (some elapsed_ms)
  | .ok llm_response =>
      if llm_response = "" ∨ py_strip llm_response = "" then
        build_response "I do not have enough information to answer that."
          .REFUSAL (get_refusal_evidence "INSUFFICIENT_DATA") (some elapsed_ms)
      else
        build_response llm_response .COMPLEX get_complex_evidence (some elapsed_ms)

/-! ## utils/text.py -/

/-- The regex class `\w` (ASCII). -/
def is_word_char (c : Char) : Bool := c.isAlphanum || c == '_'

/-- `PRONOUNS_MALE` of `text.py` (a Python set; only membership is used). -/
def PRONOUNS_MALE : List String := ["he", "him", "his"]

/-- `PRONOUNS_FEMALE` of `text.py`. -/
def PRONOUNS_FEMALE : List String := ["she", "her", "hers"]

/-- Maximal runs of word characters: `re.findall(r'\b\w+\b', s)`. -/
def word_runs (cur : List Char) : List Char → List (List Char)
  | [] => if cur = [] then [] else [cur.reverse]
  | c :: cs =>
    if is_word_char c then word_runs (c :: cur) cs
    else if cur = [] then word_runs [] cs
    else cur.reverse :: word_runs [] cs

/-- `contains_pronoun` of `text.py`: the male set is tested first. -/
def contains_pronoun (query : String) : Option String :=
  let words := (word_runs [] (py_lower query).data).map (fun l => (⟨l⟩ : String))
  if words.any (fun w => PRONOUNS_MALE.contains w) then some "male"
  else if words.any (fun w => PRONOUNS_FEMALE.contains w) then some "female"
  else none

/-- The straight apostrophe (U+0027). -/
def apos_std : Char := Char.ofNat 39

/-- The curly apostrophe (U+2019) used by the second pattern of
`extract_possessive_name`. -/
def apos_curly : Char := Char.ofNat 8217

/-- Does the list start with apostrophe, `s`, then a non-word boundary?  (The
tail of the pattern `(\w+)'s\b` after the captured word.) -/
def possessive_follows (ap : Char) : List Char → Bool
  | a :: b :: t =>
    a == ap && b == 's' &&
      (match t with
       | [] => true
       | d :: _ => !is_word_char d)
  | _ => false

/-- `re.search(r"(\w+)'s\b", s)`: the leftmost maximal word run followed by
`'s` and a word boundary; returns the captured run.  A match can only start at
the beginning of a maximal run (any later start inside the run meets the same
follow-set), so scanning runs left to right is exact.  The list shrinks by at
least one element per step, so structural recursion on a fuel initialised to
the list length computes the same scan while staying kernel-reducible. -/
def scan_possessive_aux (ap : Char) : Nat → List Char → Option (List Char)
  | 0, _ => none
  | _ + 1, [] => none
  | fuel + 1, c :: cs =>
    if is_word_char c then
      let rest := cs.dropWhile is_word_char
      if possessive_follows ap rest then some (c :: cs.takeWhile is_word_char)
      else scan_possessive_aux ap fuel rest
    else scan_possessive_aux ap fuel cs

def scan_possessive (ap : Char) (l : List Char) : Option (List Char) :=
  scan_possessive_aux ap l.length l

/-- `extract_possessive_name` of `text.py`: the standard-apostrophe pattern is
tried on the lowered query first, then the curly-apostrophe pattern. -/
def extract_possessive_name (query : String) : Option String :=
  let query_text := py_lower query
  match scan_possessive apos_std query_text.data with
  | some run => some (⟨run⟩ : String)
  | none => (scan_possessive apos_curly query_text.data).map (fun run => (⟨run⟩ : String))

/-! ## db/models.py and utils/context_manager.py -/

/-- `Patient` row of `db/models.py`; nullable columns are `Option`. -/
structure Patient where
  patient_id : Int
  name : String
  age : Option Int
  gender : Option String
  primary_condition : Option String
  risk_level : Option String
deriving DecidableEq, Repr

/-- `ConversationContext` of `context_manager.py`, in its effective
(non-expired) view: the TTL clock is not modelled, so a context whose 30-minute
expiry has passed is represented by the all-`none` record, exactly what every
reader observes of it. -/
structure ConversationContext where
  last_patient_id : Option Int
  last_patient_name : Option String
  last_patient_gender : Option String
  last_query_type : Option String
deriving DecidableEq, Repr

/-- `ConversationContext.set_active_patient`: overwrites every field. -/
def ConversationContext.set_active_patient (_ctx : ConversationContext)
    (patient_id : Int) (patient_name : String) (patient_gender : Option String)
    (query_type : Option String) : ConversationContext :=
  { last_patient_id := some patient_id
    last_patient_name := some patient_name
    last_patient_gender := patient_gender
    last_query_type := query_type }

/-- `ConversationContext.has_active_patient`. -/
def ConversationContext.has_active_patient (ctx : ConversationContext) : Bool :=
  ctx.last_patient_id.isSome

/-! ## utils/reference_resolver.py

The database session is the list of `Patient` rows.  SQLAlchemy
`Patient.name.ilike(pat)` is case-insensitive LIKE: both sides lowered, with
`_` in the pattern matching any single character (`%` cannot occur in a
candidate extracted by `\w+`, and names are compared against the pattern as-is
or wrapped in `%...%`). -/

/-- One LIKE pattern character against one text character (both lowered). -/
def like_char (pc c : Char) : Bool := pc == '_' || pc == c

/-- LIKE match of a whole pattern against a whole string. -/
def like_match_exact : List Char → List Char → Bool
  | [], [] => true
  | pc :: ps, c :: cs => like_char pc c && like_match_exact ps cs
  | _, _ => false

/-- LIKE match of a pattern against some prefix of the text. -/
def like_match_prefix_of : List Char → List Char → Bool
  | [], _ => true
  | _ :: _, [] => false
  | pc :: ps, c :: cs => like_char pc c && like_match_prefix_of ps cs

/-- LIKE match of `%pat%`: the pattern matches some contiguous window. -/
def like_match_sub (pat : List Char) : List Char → Bool
  | [] => like_match_prefix_of pat []
  | c :: cs => like_match_prefix_of pat (c :: cs) || like_match_sub pat cs

/-- `_find_patients_by_name` of `reference_resolver.py`: exact (case-
insensitive) matches first; if none, `%name%` substring matches. -/
def _find_patients_by_name (name : String) (db : List Patient) : List Patient :=
  if name = "" then []
  else
    let name_lower := py_strip (py_lower name)
    let patients := db.filter (fun p => like_match_exact name_lower.data (py_lower p.name).data)
    if patients ≠ [] then patients
    else db.filter (fun p => like_match_sub name_lower.data (py_lower p.name).data)

/-- `_find_patient_by_id`: first row with the given id; called with the raw
`Optional[int]` from the context (a `None` id matches no non-null primary
key). -/
def _find_patient_by_id (patient_id : Option Int) (db : List Patient) : Option Patient :=
  match patient_id with
  | none => none
  | some pid => (db.filter (fun p => p.patient_id == pid)).head?

/-- `_check_gender_match` of `reference_resolver.py`; an unrecorded (falsy)
patient gender always matches. -/
def _check_gender_match (pronoun_gender : String) (patient_gender : Option String) : Bool :=
  match patient_gender with
  | none => true
  | some g =>
    if g = "" then true
    else
      let gl := py_lower g
      if pronoun_gender = "male" then gl == "male" || gl == "m" || gl == "man"
      else if pronoun_gender = "female" then gl == "female" || gl == "f" || gl == "woman"
      else false

/-- Strategy 2 of `resolve_patient_reference` (possessive names with ambiguity
detection) followed by Strategy 3, factored out because the pronoun branch
falls through to it. -/
def resolve_possessive_strategy (query : String) (db : List Patient)
    (ctx : ConversationContext) : (Option Patient × String) × ConversationContext :=
  match extract_possessive_name query with
  | some possessive_name =>
    match _find_patients_by_name possessive_name db with
    | [patient] =>
      ((some patient, "POSSESSIVE"),
        ctx.set_active_patient patient.patient_id patient.name patient.gender none)
    | [] => ((none, "NONE"), ctx)
    | _ :: _ :: _ => ((none, "AMBIGUOUS"), ctx)
  | none => ((none, "NONE"), ctx)

/-- `resolve_patient_reference` of `reference_resolver.py`.  Returns the
(patient, resolution method) pair together with the context after the call. -/
def resolve_patient_reference (query : String) (db : List Patient)
    (ctx : ConversationContext) : (Option Patient × String) × ConversationContext :=
  match contains_pronoun query with
  | some pronoun_gender =>
    if ctx.has_active_patient then
      match _find_patient_by_id ctx.last_patient_id db with
      | some patient =>
        if _check_gender_match pronoun_gender patient.gender then
          ((some patient, "PRONOUN"), ctx)
        else
          ((none, "GENDER_MISMATCH"), ctx)
      | none => resolve_possessive_strategy query db ctx
    else ((none, "NO_CONTEXT"), ctx)
  | none => resolve_possessive_strategy query db ctx

/-! ## rag/synthetic_reasoner.py -/

/-- `PatientHistory` row of `db/models.py`; nullable text columns are
`Option`. -/
structure HistoryRecord where
  record_id : Int
  patient_id : Int
  visit_date : Option String
  notes : Option String
  treatment : Option String
  clinician : Option String
deriving DecidableEq, Repr

/-- Python truthiness of an optional string (`None` and `""` are falsy). -/
def truthy (s : Option String) : Bool :=
  match s with
  | none => false
  | some s => s ≠ ""

/-- `SYNTHESIS_SIGNAL_PATTERNS` of `synthetic_reasoner.py` (the literal regex
pattern strings, kept as data; matching is the abstracted `re_search`). -/
def SYNTHESIS_SIGNAL_PATTERNS : List String :=
  ["\\b(overall|altogether|combined|aggregate|across all)\\b",
   "\\b(big picture|whole picture|full picture)\\b",
   "\\b(patterns? across|trends? across|data (together|combined))\\b",
   "\\b(history and (vitals?|labs?)|vitals? and labs?)\\b",
   "\\b(all (the|her|his|their) data)\\b",
   "\\b(looking at everything|considering all|taking into account)\\b",
   "\\b(synthesis|synthesize|comprehensive view)\\b",
   "\\b(over (the )?time.*together|together.*over (the )?time)\\b"]

/-- `_has_synthesis_signals` of `synthetic_reasoner.py`. -/
def _has_synthesis_signals (re_search : String → String → Bool) (query : String) :
    Bool × List String :=
  let query_lower := py_lower query
  let matched := SYNTHESIS_SIGNAL_PATTERNS.filter (fun p => re_search p query_lower)
  (0 < matched.length, matched)

/-- `_has_temporal_variation` of `synthetic_reasoner.py`: at least two records,
with at least two distinct truthy visit dates (the Python `set` of dates is
the deduplicated list of values). -/
def _has_temporal_variation (history_records : List HistoryRecord) : Bool :=
  if history_records = [] ∨ history_records.length < 2 then false
  else
    let dates := (history_records.filterMap
      (fun r => if truthy r.visit_date then r.visit_date else none)).dedup
    2 ≤ dates.length

/-- The vitals/labs aggregate dict (`fetch_vitals_labs_for_patient` output
fields used for gating); a falsy dict is `none`. -/
structure VitalsLabsInfo where
  vitals_count : Int
  labs_count : Int
  abnormal_vitals_count : Int
  abnormal_labs_count : Int
deriving DecidableEq, Repr

/-- `_has_mixed_signals` of `synthetic_reasoner.py`. -/
def _has_mixed_signals (vitals_labs_info : Option VitalsLabsInfo) : Bool :=
  match vitals_labs_info with
  | none => false
  | some info =>
    let normal_vitals := info.vitals_count - info.abnormal_vitals_count
    let normal_labs := info.labs_count - info.abnormal_labs_count
    let has_abnormal := 0 < info.abnormal_vitals_count || 0 < info.abnormal_labs_count
    let has_normal := 0 < normal_vitals || 0 < normal_labs
    has_abnormal && has_normal

/-- `_count_data_sources` of `synthetic_reasoner.py`. -/
def _count_data_sources (history_count vitals_count labs_count : Int) : Int :=
  (if 0 < history_count then 1 else 0)
    + (if 0 < vitals_count then 1 else 0)
    + (if 0 < labs_count then 1 else 0)

/-- `vitals_labs_info.get("vitals_count", 0) if vitals_labs_info else 0`. -/
def vl_vitals_count : Option VitalsLabsInfo → Int
  | some info => info.vitals_count
  | none => 0

/-- `vitals_labs_info.get("labs_count", 0) if vitals_labs_info else 0`. -/
def vl_labs_count : Option VitalsLabsInfo → Int
  | some info => info.labs_count
  | none => 0

/-- `should_activate_synthetic_reasoning` of `synthetic_reasoner.py`. -/
def should_activate_synthetic_reasoning (re_search : String → String → Bool)
    (query_type : String) (query : String) (history_records : List HistoryRecord)
    (vitals_labs_info : Option VitalsLabsInfo) (patient_is_valid : Bool) :
    Bool × String :=
  if query_type ≠ "COMPLEX" then (false, "Not a COMPLEX query type")
  else if !patient_is_valid then (false, "Patient identity is ambiguous or invalid")
  else if !(_has_synthesis_signals re_search query).1 then
    (false, "No synthesis signals detected in query")
  else
    let history_count : Int := history_records.length
    let vitals_count := vl_vitals_count vitals_labs_info
    let labs_count := vl_labs_count vitals_labs_info
    let source_count := _count_data_sources history_count vitals_count labs_count
    if source_count < 2 then
      (false, "Insufficient data sources (" ++ toString source_count ++ "/2 required)")
    else if !_has_temporal_variation history_records then
      (false, "No temporal variation in history records")
    else if !_has_mixed_signals vitals_labs_info then
      (false, "No mixed signals (abnormal + normal) in vitals/labs")
    else (true, "All activation rules passed")

/-! ## rag/trend_analyzer.py -/

/-- Lexicographic comparison of character lists by code point — exactly
Python's string `<=` used by `sorted(..., key=...)`. -/
def chars_le : List Char → List Char → Bool
  | [], _ => true
  | _ :: _, [] => false
  | a :: as, b :: bs => if a < b then true else if b < a then false else chars_le as bs

/-- Python `a <= b` on strings (code-point lexicographic). -/
def py_str_le (a b : String) : Bool := chars_le a.data b.data

/-- `WORSENING_KEYWORDS` of `trend_analyzer.py` (a Python set with distinct
elements; only membership counting is performed, so order is irrelevant). -/
def WORSENING_KEYWORDS : List String :=
  ["exacerbation", "worsened", "worsening", "deteriorated", "deteriorating",
   "declined", "declining", "acute", "flare", "flare-up",
   "new symptoms", "increased", "elevated", "severe", "concerning"]

/-- `IMPROVEMENT_KEYWORDS` of `trend_analyzer.py`. -/
def IMPROVEMENT_KEYWORDS : List String :=
  ["improved", "improving", "better", "resolved", "stable",
   "well-controlled", "controlled", "maintained", "normal",
   "progressing well", "recovery", "recovered"]

/-- `NEUTRAL_KEYWORDS` of `trend_analyzer.py`. -/
def NEUTRAL_KEYWORDS : List String :=
  ["routine", "follow-up", "check", "review", "monitoring",
   "no acute", "no change", "consistent", "unchanged"]

/-- The dict returned by `_extract_patterns`. -/
structure PatternCounts where
  worsening : Nat
  improving : Nat
  neutral : Nat
deriving DecidableEq, Repr

/-- `_extract_patterns` of `trend_analyzer.py`: how many keywords of each set
occur as substrings of the lowered notes. -/
def _extract_patterns (notes : Option String) : PatternCounts :=
  match notes with
  | none => ⟨0, 0, 0⟩
  | some s =>
    if s = "" then ⟨0, 0, 0⟩
    else
      let notes_lower := py_lower s
      ⟨WORSENING_KEYWORDS.countP (fun kw => py_in kw notes_lower),
       IMPROVEMENT_KEYWORDS.countP (fun kw => py_in kw notes_lower),
       NEUTRAL_KEYWORDS.countP (fun kw => py_in kw notes_lower)⟩

/-- One entry of the `details` list built by `analyze_trend`. -/
structure VisitDetail where
  date : Option String
  trend : String
  notes_snippet : Option String
deriving DecidableEq, Repr

/-- The `notes_snippet` expression of `analyze_trend`: first 100 characters
plus an ellipsis when the notes exceed 100 characters. -/
def notes_snippet_of (notes : Option String) : Option String :=
  match notes with
  | none => none
  | some s =>
    if 100 < s.data.length then some ((⟨s.data.take 100⟩ : String) ++ "...")
    else some s

/-- The dict returned by `analyze_trend`.  (Python's empty-history return dict
omits the `total_*` keys; they are modelled as zeros there.) -/
structure TrendResult where
  has_history : Bool
  visit_count : Nat
  summary : String
  pattern : String
  total_worsening : Nat
  total_improving : Nat
  total_neutral : Nat
  details : List VisitDetail
deriving DecidableEq, Repr

/-- `analyze_trend` of `trend_analyzer.py`.  Python's stable `sorted` is
modelled by the stable `List.insertionSort` (extensionally the unique stable
sort for the total preorder on the `visit_date or ""` key).  Python assigns
`pattern` and `summary` in one `if/elif` chain; here the same chain appears
once per value. -/
def analyze_trend (patient_history : List HistoryRecord) : TrendResult :=
  if patient_history = [] then
    { has_history := false, visit_count := 0,
      summary := "No visit history available for trend analysis.",
      pattern := "INSUFFICIENT_DATA",
      total_worsening := 0, total_improving := 0, total_neutral := 0,
      details := [] }
  else
    let sorted_history := List.insertionSort
      (fun a b => py_str_le (a.visit_date.getD "") (b.visit_date.getD "") = true)
      patient_history
    let total_worsening := (sorted_history.map (fun r => (_extract_patterns r.notes).worsening)).sum
    let total_improving := (sorted_history.map (fun r => (_extract_patterns r.notes).improving)).sum
    let total_neutral := (sorted_history.map (fun r => (_extract_patterns r.notes).neutral)).sum
    let visit_details := sorted_history.map (fun r =>
      let patterns := _extract_patterns r.notes
      { date := r.visit_date
        trend :=
          if patterns.improving < patterns.worsening then "WORSENING"
          else if patterns.worsening < patterns.improving then "IMPROVING"
          else "STABLE"
        notes_snippet := notes_snippet_of r.notes : VisitDetail })
    let pattern :=
      if total_worsening = 0 ∧ total_improving = 0 then "NO_CLEAR_TREND"
      else if total_improving * 2 < total_worsening then "WORSENING_TREND"
      else if total_worsening * 2 < total_improving then "IMPROVING_TREND"
      else if 0 < total_worsening ∧ 0 < total_improving then "INTERMITTENT"
      else "STABLE"
    let summary :=
      if total_worsening = 0 ∧ total_improving = 0 then
        "Visit notes do not contain explicit indicators of symptom progression or worsening."
      else if total_improving * 2 < total_worsening then
        "Notes indicate potential worsening trend (" ++ toString total_worsening
          ++ " worsening indicators vs " ++ toString total_improving
          ++ " improvement indicators)."
      else if total_worsening * 2 < total_improving then
        "Notes indicate improvement trend (" ++ toString total_improving
          ++ " improvement indicators vs " ++ toString total_worsening
          ++ " worsening indicators)."
      else if 0 < total_worsening ∧ 0 < total_improving then
        "Notes show intermittent pattern with both improvements and exacerbations ("
          ++ toString total_improving ++ " improving, " ++ toString total_worsening
          ++ " worsening)."
      else
        "Notes indicate generally stable condition (" ++ toString total_neutral
          ++ " routine/stable indicators)."
    { has_history := true, visit_count := sorted_history.length, summary := summary,
      pattern := pattern, total_worsening := total_worsening,
      total_improving := total_improving, total_neutral := total_neutral,
      details := visit_details }

/-! ## rag/query_classifier.py -/

/-- `SEVERITY_ASSESSMENT_PATTERNS` of `query_classifier.py` (literal regex
strings, kept as data for the abstracted matcher). -/
def SEVERITY_ASSESSMENT_PATTERNS : List String :=
  ["\\bhow\\s+(bad|serious|severe|critical|dangerous|concerning|worrying|urgent)\\b",
   "\\bhow\\s+(good|stable|mild|manageable)\\b",
   "\\bis\\s+(his|her|the|this)\\s+\\w*\\s*(serious|severe|bad|dangerous|critical|concerning|worrying)\\b",
   "\\bis\\s+(it|this)\\s+(serious|severe|bad|dangerous|critical|concerning)\\b",
   "\\bshould\\s+(i|we)\\s+(be\\s+)?(worried|concerned|alarmed)\\b",
   "\\bshould\\s+(i|we)\\s+worry\\b",
   "\\bis\\s+(this|it)\\s+(something\\s+to\\s+)?(worry|concern)\\b",
   "\\b(does|do)\\s+(he|she|they)\\s+have\\s+a\\s+(severe|bad|serious|mild|moderate)\\s+(case|condition)\\b",
   "\\bwhat\\s+is\\s+(the\\s+)?(severity|seriousness|prognosis)\\b",
   "\\bhow\\s+(concerning|worrying)\\s+is\\b",
   "\\bis\\s+(this|it)\\s+a\\s+(severe|mild|serious|bad|moderate)\\s+(case|condition)\\b"]

/-- `QUALITATIVE_KEYWORDS` of `query_classifier.py` (a Python set; only
existence of a member satisfying a keyword-independent side condition is
consumed, so order is irrelevant). -/
def QUALITATIVE_KEYWORDS : List String :=
  ["bad", "serious", "severe", "critical", "dangerous",
   "mild", "moderate", "manageable", "stable",
   "worried", "concern", "concerning", "worrying", "alarmed",
   "worry", "alarming", "urgent",
   "seriousness", "prognosis"]

/-- `EXPLICIT_FACTUAL_PATTERNS` of `query_classifier.py`. -/
def EXPLICIT_FACTUAL_PATTERNS : List String :=
  ["\\bwhat\\s+(is|are)\\s+(his|her|the)\\s+(diagnosis|condition|disease|illness)\\b",
   "\\bwhat\\s+condition\\s+(does|do)\\b",
   "\\bwhat\\s+is\\s+\\w+\\s+(diagnosed|suffering)\\b",
   "\\bhow\\s+old\\b",
   "\\bwhat\\s+is\\s+(his|her|the)\\s+age\\b",
   "\\brisk\\s+level\\b"]

/-- `STATIC_ATTRIBUTE_PATTERNS` of `query_classifier.py`: ordered
(pattern, field) pairs. -/
def STATIC_ATTRIBUTE_PATTERNS : List (String × String) :=
  [("\\bhow old\\b", "age"),
   ("\\bage\\b", "age"),
   ("\\byears old\\b", "age"),
   ("\\bdiagnosed with\\b", "primary_condition"),
   ("\\bdiagnosis\\b", "primary_condition"),
   ("\\bwhat condition\\b", "primary_condition"),
   ("\\bwhat is .* condition\\b", "primary_condition"),
   ("\\bwhat (?:does|do) .* have\\b", "primary_condition"),
   ("\\brisk level\\b", "risk_level"),
   ("\\bwhat is .* risk\\s*level\\b", "risk_level"),
   ("\\bgender\\b", "gender"),
   ("\\bwhat sex\\b", "gender")]

/-- `TEMPORAL_CHANGE_KEYWORDS` of `query_classifier.py` (a Python set; only
`any`-membership is used). -/
def TEMPORAL_CHANGE_KEYWORDS : List String :=
  ["changed", "changes", "changing",
   "worsened", "worsen", "worsening",
   "progressed", "progress", "progression",
   "improved", "improve", "improving",
   "deteriorated", "deteriorating",
   "over time", "over the years", "over the months",
   "throughout", "since then", "before and after",
   "trend", "trends", "pattern", "patterns",
   "compare", "comparison", "difference"]

/-- `SUMMARY_KEYWORDS` of `query_classifier.py`. -/
def SUMMARY_KEYWORDS : List String :=
  ["summary", "summarize", "summarise",
   "overview", "tell me about",
   "who is", "describe", "background",
   "treatment history", "visit history", "visits",
   "history"]

/-- `FACTUAL_MAPPINGS` of `query_classifier.py` (a Python dict; only the set
of values whose key occurs in the query is consumed). -/
def FACTUAL_MAPPINGS : List (String × String) :=
  [("diagnosed", "primary_condition"),
   ("diagnosis", "primary_condition"),
   ("disease", "primary_condition"),
   ("illness", "primary_condition"),
   ("age", "age"),
   ("old", "age"),
   ("gender", "gender"),
   ("sex", "gender")]

/-- Maximal runs of non-whitespace characters: Python `s.split()`. -/
def ws_runs (cur : List Char) : List Char → List (List Char)
  | [] => if cur = [] then [] else [cur.reverse]
  | c :: cs =>
    if !c.isWhitespace then ws_runs (c :: cur) cs
    else if cur = [] then ws_runs [] cs
    else cur.reverse :: ws_runs [] cs

/-- Python `s.split()`. -/
def py_split (s : String) : List String := (ws_runs [] s.data).map (fun l => (⟨l⟩ : String))

/-- `_is_severity_assessment` of `query_classifier.py`: explicit-factual
negation first, then structural severity patterns, then the weak
question-starter + qualitative-keyword heuristic. -/
def _is_severity_assessment (re_search : String → String → Bool) (query : String) : Bool :=
  let query_lower := py_lower query
  if EXPLICIT_FACTUAL_PATTERNS.any (fun p => re_search p query_lower) then false
  else if SEVERITY_ASSESSMENT_PATTERNS.any (fun p => re_search p query_lower) then true
  else
    let question_starters : List String := ["how", "is", "are", "should", "does", "do", "what"]
    let has_question_start :=
      if py_strip query_lower ≠ "" then (py_split query_lower).headD "" else ""
    if question_starters.contains has_question_start then
      QUALITATIVE_KEYWORDS.any (fun keyword =>
        py_in keyword query_lower
          && !(py_in "what condition" query_lower)
          && !(py_in "what is" (⟨query_lower.data.take 20⟩ : String)))
    else false

/-- The loop body of `_check_static_attribute` (the temporal check inside the
loop is query-global, computed once and passed in). -/
def static_attr_loop (re_search : String → String → Bool) (query_lower : String)
    (has_temporal : Bool) : List (String × String) → Option String
  | [] => none
  | (pattern, field) :: rest =>
    if re_search pattern query_lower then
      if !has_temporal then some field
      else static_attr_loop re_search query_lower has_temporal rest
    else static_attr_loop re_search query_lower has_temporal rest

/-- `_check_static_attribute` of `query_classifier.py`. -/
def _check_static_attribute (re_search : String → String → Bool) (query : String) :
    Option String :=
  let query_lower := py_lower query
  let has_temporal := TEMPORAL_CHANGE_KEYWORDS.any (fun kw => py_in kw query_lower)
  static_attr_loop re_search query_lower has_temporal STATIC_ATTRIBUTE_PATTERNS

/-- `_is_temporal_complex_query` of `query_classifier.py`. -/
def _is_temporal_complex_query (query : String) : Bool :=
  TEMPORAL_CHANGE_KEYWORDS.any (fun keyword => py_in keyword (py_lower query))

/-- `_is_summary_query` of `query_classifier.py`. -/
def _is_summary_query (query : String) : Bool :=
  SUMMARY_KEYWORDS.any (fun keyword => py_in keyword (py_lower query))

/-- `_check_factual_field` of `query_classifier.py`: the set of distinct
fields whose keyword occurs; a unique field is returned, otherwise nothing. -/
def _check_factual_field (query : String) : Option String :=
  let query_lower := py_lower query
  let matched_fields :=
    ((FACTUAL_MAPPINGS.filter (fun kf => py_in kf.1 query_lower)).map (fun kf => kf.2)).dedup
  if matched_fields.length = 1 then matched_fields.head? else none

/-- `ClassificationResult`: the dict `{"type": ..., "field": ...}`. -/
structure ClassificationResult where
  type : String
  field : Option String
deriving DecidableEq, Repr

/-- `classify_query` of `query_classifier.py`: the six-step precedence
chain. -/
def classify_query (re_search : String → String → Bool) (query : String) :
    ClassificationResult :=
  if query = "" ∨ py_strip query = "" then ⟨"COMPLEX", none⟩
  else
    match _check_static_attribute re_search query with
    | some static_field => ⟨"FACTUAL", some static_field⟩
    | none =>
      if _is_severity_assessment re_search query then ⟨"SEVERITY_ASSESSMENT", none⟩
      else if _is_temporal_complex_query query then ⟨"COMPLEX", none⟩
      else if _is_summary_query query then ⟨"SUMMARY", none⟩
      else
        match _check_factual_field query with
        | some factual_field => ⟨"FACTUAL", some factual_field⟩
        | none => ⟨"COMPLEX", none⟩

/-! ## rag/relevance_scorer.py

Score arithmetic (`float` in Python: integers scaled by 0.4/0.6) is modelled
exactly over `ℚ`.  `datetime.now()` is an explicit `now : DateT` parameter
(the calendar date of the wall clock; `(now − parsed).days` for a
midnight-parsed date equals the difference of proleptic-Gregorian ordinals). -/

/-- A parsed `datetime` (date part; every value `strptime` produces here is at
midnight). -/
structure DateT where
  year : Nat
  month : Nat
  day : Nat
deriving DecidableEq, Repr

/-- `datetime.min` (0001-01-01). -/
def datetime_min : DateT := ⟨1, 1, 1⟩

/-- `datetime` comparison: lexicographic on (year, month, day). -/
def DateT.le (a b : DateT) : Prop :=
  a.year < b.year ∨ (a.year = b.year
    ∧ (a.month < b.month ∨ (a.month = b.month ∧ a.day ≤ b.day)))

instance : DecidableRel DateT.le := fun a b => by
  unfold DateT.le
  infer_instance

theorem DateT.le_total' (a b : DateT) : DateT.le a b ∨ DateT.le b a := by
  unfold DateT.le
  omega

theorem DateT.le_trans' (a b c : DateT) : DateT.le a b → DateT.le b c → DateT.le a c := by
  unfold DateT.le
  omega

/-- Gregorian leap year. -/
def is_leap_year (y : Nat) : Bool := (y % 4 = 0 && y % 100 ≠ 0) || y % 400 = 0

/-- Days in a month (the validation `datetime.__new__` performs). -/
def days_in_month (y m : Nat) : Nat :=
  if m = 2 then (if is_leap_year y then 29 else 28)
  else if m = 4 ∨ m = 6 ∨ m = 9 ∨ m = 11 then 30
  else 31

/-- Digit-string to number (tokens are validated to be all digits first). -/
def digits_to_nat (l : List Char) : Nat :=
  l.foldl (fun acc c => acc * 10 + (c.toNat - 48)) 0

def all_digits (l : List Char) : Bool := l.all Char.isDigit

/-- `%Y` of `strptime`: exactly four digits. -/
def valid_year_token (t : List Char) : Bool := t.length = 4 && all_digits t

/-- `%m` of `strptime`: one or two digits, value 1–12. -/
def valid_month_token (t : List Char) : Bool :=
  all_digits t && (t.length = 1 || t.length = 2)
    && 1 ≤ digits_to_nat t && digits_to_nat t ≤ 12

/-- `%d` of `strptime`: one or two digits, value 1–31. -/
def valid_day_token (t : List Char) : Bool :=
  all_digits t && (t.length = 1 || t.length = 2)
    && 1 ≤ digits_to_nat t && digits_to_nat t ≤ 31

/-- Split on a separator character, keeping empty parts (Python
`re`-free splitting of the fixed-format date strings). -/
def sep_split (sep : Char) (cur : List Char) : List Char → List (List Char)
  | [] => [cur.reverse]
  | c :: cs =>
    if c == sep then cur.reverse :: sep_split sep [] cs
    else sep_split sep (c :: cur) cs

/-- `datetime(y, m, d)` construction: validates ranges (year ≥ 1, month 1–12,
day within the month), else `ValueError`. -/
def mk_datetime (y m d : Nat) : Option DateT :=
  if 1 ≤ y ∧ 1 ≤ m ∧ m ≤ 12 ∧ 1 ≤ d ∧ d ≤ days_in_month y m then some ⟨y, m, d⟩
  else none

/-- Field order of a date format. -/
inductive DateOrder where
  | ymd
  | dmy
  | mdy
deriving DecidableEq, Repr

/-- `datetime.strptime(s, fmt)` for the three-field date formats of
`_parse_date`: the string must split on the separator into exactly three
tokens matching `%Y`/`%m`/`%d` in the format's order (full match, as
`strptime` requires), and form a valid calendar date. -/
def strptime_date (sep : Char) (ord : DateOrder) (s : String) : Option DateT :=
  match sep_split sep [] s.data with
  | [t1, t2, t3] =>
    let ty := match ord with | .ymd => t1 | .dmy => t3 | .mdy => t3
    let tm := match ord with | .ymd => t2 | .dmy => t2 | .mdy => t1
    let td := match ord with | .ymd => t3 | .dmy => t1 | .mdy => t2
    if valid_year_token ty && valid_month_token tm && valid_day_token td then
      mk_datetime (digits_to_nat ty) (digits_to_nat tm) (digits_to_nat td)
    else none
  | _ => none

/-- The `formats` list of `_parse_date`, in order:
`%Y-%m-%d`, `%Y/%m/%d`, `%d-%m-%Y`, `%d/%m/%Y`, `%m/%d/%Y`. -/
def PARSE_DATE_FORMATS : List (Char × DateOrder) :=
  [('-', .ymd), ('/', .ymd), ('-', .dmy), ('/', .dmy), ('/', .mdy)]

/-- The format-trying loop of `_parse_date`. -/
def parse_date_first (s : String) : List (Char × DateOrder) → DateT
  | [] => datetime_min
  | (sep, ord) :: rest =>
    match strptime_date sep ord s with
    | some d => d
    | none => parse_date_first s rest

/-- `_parse_date` of `relevance_scorer.py`: a falsy date string, or one
matching no format, parses to `datetime.min`. -/
def _parse_date (date_str : Option String) : DateT :=
  match date_str with
  | none => datetime_min
  | some s =>
    if s = "" then datetime_min
    else parse_date_first s PARSE_DATE_FORMATS

/-- Proleptic-Gregorian ordinal of a date (`date.toordinal`). -/
def day_ordinal (d : DateT) : Nat :=
  365 * (d.year - 1) + (d.year - 1) / 4 - (d.year - 1) / 100 + (d.year - 1) / 400
    + (((List.range (d.month - 1)).map (fun i => days_in_month d.year (i + 1))).sum)
    + d.day

/-- `_calculate_recency_score` of `relevance_scorer.py` (0–10 buckets by days
since the visit). -/
def _calculate_recency_score (now : DateT) (visit_date : Option String) : ℚ :=
  let parsed_date := _parse_date visit_date
  if parsed_date = datetime_min then 0
  else
    let days_ago : Int := (day_ordinal now : Int) - (day_ordinal parsed_date : Int)
    if days_ago ≤ 30 then 10
    else if days_ago ≤ 90 then 8
    else if days_ago ≤ 180 then 6
    else if days_ago ≤ 365 then 4
    else if days_ago ≤ 730 then 2
    else 1

/-- `CLINICAL_SIGNAL_KEYWORDS` of `relevance_scorer.py` (dict in insertion
order; only the sum of weights of present keys is consumed). -/
def CLINICAL_SIGNAL_KEYWORDS : List (String × ℚ) :=
  [("exacerbation", 3), ("worsened", 3), ("worsening", 3), ("deteriorated", 3),
   ("hospitalization", 4), ("hospitalized", 4), ("emergency", 4),
   ("new symptoms", 3), ("complication", 3), ("flare", 2), ("acute", 2),
   ("adjusted", 2), ("changed medication", 3), ("new medication", 3),
   ("increased dosage", 2), ("surgery", 4), ("procedure", 2),
   ("improved", 2), ("recovery", 2), ("resolved", 2)]

/-- `ROUTINE_KEYWORDS` of `relevance_scorer.py` (negative weights). -/
def ROUTINE_KEYWORDS : List (String × ℚ) :=
  [("stable", -1), ("routine", -2), ("no acute", -1), ("no concerns", -1),
   ("well-controlled", -1), ("unchanged", -1), ("follow-up", -1),
   ("regular check", -2)]

/-- `_calculate_clinical_signal_score` of `relevance_scorer.py`: additive
keyword weights over the lowered `"{notes} {treatment}"` text. -/
def _calculate_clinical_signal_score (notes treatment : Option String) : ℚ :=
  let text := py_lower ((notes.getD "") ++ " " ++ (treatment.getD ""))
  let score : ℚ :=
    (CLINICAL_SIGNAL_KEYWORDS.filter (fun kw => py_in kw.1 text)).foldl
      (fun acc kw => acc + kw.2) 0
  (ROUTINE_KEYWORDS.filter (fun kw => py_in kw.1 text)).foldl
    (fun acc kw => acc + kw.2) score

/-- `calculate_relevance_score` of `relevance_scorer.py`:
`0.4 × recency + 0.6 × clinical`. -/
def calculate_relevance_score (now : DateT) (record : HistoryRecord) : ℚ :=
  let recency_score := _calculate_recency_score now record.visit_date
  let clinical_score := _calculate_clinical_signal_score record.notes record.treatment
  (recency_score * 0.4) + (clinical_score * 0.6)

/-- A scored record (the dict built inside `get_weighted_history`). -/
structure ScoredRecord where
  record : HistoryRecord
  recency_score : ℚ
  clinical_score : ℚ
  total_score : ℚ
  visit_date : Option String
deriving DecidableEq, Repr

/-- One entry of the `details` output list. -/
structure ScoreDetail where
  visit_date : Option String
  recency_score : ℚ
  clinical_score : ℚ
  total_score : ℚ
deriving DecidableEq, Repr

/-- Round half to even (Python's `round` on exact values, transported to ℚ). -/
def round_half_even (q : ℚ) : Int :=
  let f : Int := q.floor
  let r : ℚ := q - (f : ℚ)
  if r < mkRat 1 2 then f
  else if mkRat 1 2 < r then f + 1
  else if f % 2 = 0 then f else f + 1

/-- Python `round(x, 2)`. -/
def round2 (q : ℚ) : ℚ := mkRat (round_half_even (q * 100)) 100

/-- `get_weighted_history` of `relevance_scorer.py`: score every record, sort
by total score descending (Python's stable `list.sort(reverse=True)`,
modelled by the stable `insertionSort` with the reversed comparator — the
unique stable descending sort), take the top `limit`, re-sort the selection
chronologically ascending by parsed date, and return records plus rounded
scoring details. -/
def get_weighted_history (now : DateT) (history_records : List HistoryRecord)
    (limit : Nat) : List HistoryRecord × List ScoreDetail :=
  if history_records = [] then ([], [])
  else
    let scored_records := history_records.map (fun record =>
      { record := record
        recency_score := _calculate_recency_score now record.visit_date
        clinical_score := _calculate_clinical_signal_score record.notes record.treatment
        total_score := calculate_relevance_score now record
        visit_date := record.visit_date : ScoredRecord })
    let sorted_records := List.insertionSort
      (fun a b => b.total_score ≤ a.total_score) scored_records
    let top_scored := sorted_records.take limit
    let top_sorted := List.insertionSort
      (fun a b => DateT.le (_parse_date a.visit_date) (_parse_date b.visit_date)) top_scored
    (top_sorted.map (fun item => item.record),
     top_sorted.map (fun item =>
       { visit_date := item.visit_date
         recency_score := round2 item.recency_score
         clinical_score := round2 item.clinical_score
         total_score := round2 item.total_score : ScoreDetail }))

/-! ## Theorems -/

/-- A filtered list is non-empty iff some element satisfies the filter. -/
theorem filter_length_pos_iff {α : Type} (l : List α) (f : α → Bool) :
    0 < (l.filter f).length ↔ ∃ a ∈ l, f a = true := by
  rw [List.length_pos, Ne, List.filter_eq_nil_iff]
  push_neg
  simp

/-- `_count_data_sources` reaches 2 iff at least two of the three sources are
non-empty. -/
theorem count_sources_two_iff (a b c : Int) :
    ¬ _count_data_sources a b c < 2
      ↔ ((0 < a ∧ 0 < b) ∨ (0 < a ∧ 0 < c) ∨ (0 < b ∧ 0 < c)) := by
  unfold _count_data_sources
  split_ifs <;> omega

/-- `_has_temporal_variation` holds iff there are at least two records and at
least two distinct truthy visit dates. -/
theorem temporal_variation_iff (l : List HistoryRecord) :
    _has_temporal_variation l = true
      ↔ (2 ≤ l.length
        ∧ 2 ≤ ((l.filterMap
            (fun r => if truthy r.visit_date then r.visit_date else none)).dedup).length) := by
  unfold _has_temporal_variation
  split_ifs with h
  · simp only [Bool.false_eq_true, false_iff]
    rintro ⟨h1, -⟩
    rcases h with h | h
    · subst h; simp at h1
    · omega
  · push_neg at h
    simp only [decide_eq_true_eq]
    constructor
    · intro hd; exact ⟨by omega, hd⟩
    · rintro ⟨-, hd⟩; exact hd

/-- `_has_mixed_signals` holds iff the aggregate is present with at least one
abnormal and at least one normal reading across vitals+labs. -/
theorem mixed_signals_iff (v : Option VitalsLabsInfo) :
    _has_mixed_signals v = true
      ↔ ∃ i, v = some i
        ∧ (0 < i.abnormal_vitals_count ∨ 0 < i.abnormal_labs_count)
        ∧ (0 < i.vitals_count - i.abnormal_vitals_count
            ∨ 0 < i.labs_count - i.abnormal_labs_count) := by
  cases v with
  | none => simp [_has_mixed_signals]
  | some i => simp [_has_mixed_signals]

/-- **C1.** The Synthesis Gate activates if and only if all six conditions
hold: the query type is COMPLEX, the patient identity is valid, a
synthesis-signal pattern matches the lowered query, at least two of the three
data sources (history / vitals / labs) are non-empty, the history has at least
two records with distinct dates, and the vitals+labs aggregate has at least
one abnormal and at least one normal reading.  By this equivalence, making any
single condition false yields non-activation. -/
theorem synthesis_gate_iff (re_search : String → String → Bool)
    (query_type query : String) (history_records : List HistoryRecord)
    (vitals_labs_info : Option VitalsLabsInfo) (patient_is_valid : Bool) :
    (should_activate_synthetic_reasoning re_search query_type query
        history_records vitals_labs_info patient_is_valid).1 = true
    ↔ (query_type = "COMPLEX"
      ∧ patient_is_valid = true
      ∧ (∃ p ∈ SYNTHESIS_SIGNAL_PATTERNS, re_search p (py_lower query) = true)
      ∧ ((history_records ≠ [] ∧ 0 < vl_vitals_count vitals_labs_info)
        ∨ (history_records ≠ [] ∧ 0 < vl_labs_count vitals_labs_info)
        ∨ (0 < vl_vitals_count vitals_labs_info ∧ 0 < vl_labs_count vitals_labs_info))
      ∧ (2 ≤ history_records.length
        ∧ 2 ≤ ((history_records.filterMap
            (fun r => if truthy r.visit_date then r.visit_date else none)).dedup).length)
      ∧ (∃ i, vitals_labs_info = some i
          ∧ (0 < i.abnormal_vitals_count ∨ 0 < i.abnormal_labs_count)
          ∧ (0 < i.vitals_count - i.abnormal_vitals_count
              ∨ 0 < i.labs_count - i.abnormal_labs_count))) := by
  have hlen : (history_records ≠ []) ↔ 0 < (history_records.length : Int) := by
    rw [← List.length_pos]
    exact_mod_cast Iff.rfl
  unfold should_activate_synthetic_reasoning
  by_cases h1 : query_type ≠ "COMPLEX"
  · rw [if_pos h1]
    refine iff_of_false (by simp) ?_
    rintro ⟨hq, -⟩; exact h1 hq
  rw [if_neg h1]
  push_neg at h1
  by_cases h2 : (!patient_is_valid) = true
  · rw [if_pos h2]
    refine iff_of_false (by simp) ?_
    rintro ⟨-, hv, -⟩
    rw [hv] at h2; simp at h2
  rw [if_neg h2]
  rw [Bool.not_eq_true, Bool.not_eq_false'] at h2
  by_cases h3 : (!(_has_synthesis_signals re_search query).1) = true
  · rw [if_pos h3]
    refine iff_of_false (by simp) ?_
    rintro ⟨-, -, hs, -⟩
    rw [Bool.not_eq_true'] at h3
    unfold _has_synthesis_signals at h3
    simp only [decide_eq_false_iff_not] at h3
    exact h3 ((filter_length_pos_iff _ _).mpr hs)
  rw [if_neg h3]
  rw [Bool.not_eq_true, Bool.not_eq_false'] at h3
  by_cases h4 : _count_data_sources ((history_records.length : Int))
      (vl_vitals_count vitals_labs_info) (vl_labs_count vitals_labs_info) < 2
  · rw [if_pos h4]
    refine iff_of_false (by simp) ?_
    rintro ⟨-, -, -, hsrc, -⟩
    refine absurd h4 ((count_sources_two_iff _ _ _).mpr ?_)
    rcases hsrc with ⟨ha, hb⟩ | ⟨ha, hb⟩ | ⟨ha, hb⟩
    · exact Or.inl ⟨hlen.mp ha, hb⟩
    · exact Or.inr (Or.inl ⟨hlen.mp ha, hb⟩)
    · exact Or.inr (Or.inr ⟨ha, hb⟩)
  rw [if_neg h4]
  by_cases h5 : (!_has_temporal_variation history_records) = true
  · rw [if_pos h5]
    refine iff_of_false (by simp) ?_
    rintro ⟨-, -, -, -, htem, -⟩
    rw [Bool.not_eq_true'] at h5
    have hc := (temporal_variation_iff _).mpr htem
    rw [h5] at hc
    exact Bool.false_ne_true hc
  rw [if_neg h5]
  rw [Bool.not_eq_true, Bool.not_eq_false'] at h5
  by_cases h6 : (!_has_mixed_signals vitals_labs_info) = true
  · rw [if_pos h6]
    refine iff_of_false (by simp) ?_
    rintro ⟨-, -, -, -, -, hmix⟩
    rw [Bool.not_eq_true'] at h6
    have hc := (mixed_signals_iff _).mpr hmix
    rw [h6] at hc
    exact Bool.false_ne_true hc
  rw [if_neg h6]
  rw [Bool.not_eq_true, Bool.not_eq_false'] at h6
  refine iff_of_true rfl
    ⟨h1, h2, ?_, ?_, (temporal_variation_iff _).mp h5, (mixed_signals_iff _).mp h6⟩
  · unfold _has_synthesis_signals at h3
    simp only [decide_eq_true_eq] at h3
    exact (filter_length_pos_iff _ _).mp h3
  · have hsrc := (count_sources_two_iff _ _ _).mp h4
    rcases hsrc with ⟨ha, hb⟩ | ⟨ha, hb⟩ | ⟨ha, hb⟩
    · exact Or.inl ⟨hlen.mpr ha, hb⟩
    · exact Or.inr (Or.inl ⟨hlen.mpr ha, hb⟩)
    · exact Or.inr (Or.inr ⟨ha, hb⟩)

/-- **C5.** For every non-empty history, the Trend Analyzer's aggregate
pattern is: `NO_CLEAR_TREND` iff both total keyword counts are zero;
`WORSENING_TREND` iff worsening > 2 × improving; `IMPROVING_TREND` iff
improving > 2 × worsening; `INTERMITTENT` iff both counts are nonzero and
neither exceeds twice the other; `STABLE` in the remaining case.  In
particular, 3 worsening indicators against 1 improving indicator yield
`WORSENING_TREND`. -/
theorem analyze_trend_pattern_rule (history : List HistoryRecord) (hne : history ≠ []) :
    ((analyze_trend history).pattern = "NO_CLEAR_TREND"
      ↔ ((analyze_trend history).total_worsening = 0
        ∧ (analyze_trend history).total_improving = 0))
    ∧ ((analyze_trend history).pattern = "WORSENING_TREND"
      ↔ 2 * (analyze_trend history).total_improving < (analyze_trend history).total_worsening)
    ∧ ((analyze_trend history).pattern = "IMPROVING_TREND"
      ↔ 2 * (analyze_trend history).total_worsening < (analyze_trend history).total_improving)
    ∧ ((analyze_trend history).pattern = "INTERMITTENT"
      ↔ (0 < (analyze_trend history).total_worsening
        ∧ 0 < (analyze_trend history).total_improving
        ∧ (analyze_trend history).total_worsening ≤ 2 * (analyze_trend history).total_improving
        ∧ (analyze_trend history).total_improving ≤ 2 * (analyze_trend history).total_worsening))
    ∧ ((analyze_trend history).pattern = "STABLE"
      ↔ (¬((analyze_trend history).total_worsening = 0
            ∧ (analyze_trend history).total_improving = 0)
        ∧ (analyze_trend history).total_worsening ≤ 2 * (analyze_trend history).total_improving
        ∧ (analyze_trend history).total_improving ≤ 2 * (analyze_trend history).total_worsening
        ∧ ¬(0 < (analyze_trend history).total_worsening
            ∧ 0 < (analyze_trend history).total_improving)))
    ∧ ((analyze_trend history).total_worsening = 3
        → (analyze_trend history).total_improving = 1
        → (analyze_trend history).pattern = "WORSENING_TREND") := by
  have hp : (analyze_trend history).pattern
      = (if (analyze_trend history).total_worsening = 0
            ∧ (analyze_trend history).total_improving = 0 then "NO_CLEAR_TREND"
         else if (analyze_trend history).total_improving * 2
            < (analyze_trend history).total_worsening then "WORSENING_TREND"
         else if (analyze_trend history).total_worsening * 2
            < (analyze_trend history).total_improving then "IMPROVING_TREND"
         else if 0 < (analyze_trend history).total_worsening
            ∧ 0 < (analyze_trend history).total_improving then "INTERMITTENT"
         else "STABLE") := by
    unfold analyze_trend
    rw [if_neg hne]
  set w := (analyze_trend history).total_worsening with hw
  set i := (analyze_trend history).total_improving with hi
  by_cases c1 : w = 0 ∧ i = 0
  · rw [hp, if_pos c1]
    exact ⟨iff_of_true rfl c1,
      iff_of_false (by decide) (by omega),
      iff_of_false (by decide) (by omega),
      iff_of_false (by decide) (by omega),
      iff_of_false (by decide) (by omega),
      fun h3 _ => by exfalso; omega⟩
  · rw [hp, if_neg c1]
    by_cases c2 : i * 2 < w
    · rw [if_pos c2]
      exact ⟨iff_of_false (by decide) (by omega),
        iff_of_true rfl (by omega),
        iff_of_false (by decide) (by omega),
        iff_of_false (by decide) (by omega),
        iff_of_false (by decide) (by omega),
        fun _ _ => rfl⟩
    · rw [if_neg c2]
      by_cases c3 : w * 2 < i
      · rw [if_pos c3]
        exact ⟨iff_of_false (by decide) (by omega),
          iff_of_false (by decide) (by omega),
          iff_of_true rfl (by omega),
          iff_of_false (by decide) (by omega),
          iff_of_false (by decide) (by omega),
          fun h3 h4 => by exfalso; omega⟩
      · rw [if_neg c3]
        by_cases c4 : 0 < w ∧ 0 < i
        · rw [if_pos c4]
          exact ⟨iff_of_false (by decide) (by omega),
            iff_of_false (by decide) (by omega),
            iff_of_false (by decide) (by omega),
            iff_of_true rfl (by omega),
            iff_of_false (by decide) (by omega),
            fun h3 h4 => by exfalso; omega⟩
        · rw [if_neg c4]
          exact ⟨iff_of_false (by decide) (by omega),
            iff_of_false (by decide) (by omega),
            iff_of_false (by decide) (by omega),
            iff_of_false (by decide) (by omega),
            iff_of_true rfl ⟨c1, by omega, by omega, c4⟩,
            fun h3 h4 => by exfalso; omega⟩

/-- A four-visit history with 3 worsening indicators and 1 improving one. -/
def trend_witness_history : List HistoryRecord :=
  [⟨1, 1, some "2023-01-01", some "worsening of symptoms", none, none⟩,
   ⟨2, 1, some "2023-02-01", some "exacerbation noted", none, none⟩,
   ⟨3, 1, some "2023-03-01", some "further worsening", none, none⟩,
   ⟨4, 1, some "2023-04-01", some "improved slightly", none, none⟩]

/-- Witness for C5 at a concrete input: the 3-vs-1 scenario gives
`WORSENING_TREND`. -/
theorem analyze_trend_pattern_rule_witness :
    trend_witness_history ≠ []
    ∧ (analyze_trend trend_witness_history).total_worsening = 3
    ∧ (analyze_trend trend_witness_history).total_improving = 1
    ∧ (analyze_trend trend_witness_history).pattern = "WORSENING_TREND" :=
  ⟨by decide, by decide, by decide,
    (analyze_trend_pattern_rule trend_witness_history
        (by decide)).2.2.2.2.2 (by decide) (by decide)⟩

/-- With no temporal keyword present, the static-attribute loop returns the
field of the first matching pattern. -/
theorem static_attr_loop_of_temporal_false (re_search : String → String → Bool)
    (ql : String) : ∀ l : List (String × String),
    static_attr_loop re_search ql false l
      = (l.find? (fun pf => re_search pf.1 ql)).map (fun pf => pf.2)
  | [] => rfl
  | (p, f) :: rest => by
    by_cases h : re_search p ql
    · simp [static_attr_loop, List.find?, h]
    · simp only [static_attr_loop, List.find?]
      rw [if_neg h]
      simp only [Bool.not_eq_true] at h
      rw [h]
      exact static_attr_loop_of_temporal_false re_search ql rest

/-- With a temporal keyword present, the static-attribute loop never
returns a field. -/
theorem static_attr_loop_of_temporal_true (re_search : String → String → Bool)
    (ql : String) : ∀ l : List (String × String),
    static_attr_loop re_search ql true l = none
  | [] => rfl
  | (p, f) :: rest => by
    simp only [static_attr_loop]
    rw [static_attr_loop_of_temporal_true re_search ql rest]
    split <;> rfl

/-- **C6.** A non-blank query matching a static-attribute pattern with no
temporal/change keyword classifies as FACTUAL with the field of the first
matching pattern; with a temporal keyword present the static-attribute rule is
skipped (`_check_static_attribute` yields nothing) and the classification is
SEVERITY_ASSESSMENT or COMPLEX — never static-attribute FACTUAL.  The
classifier is a pure function of the text (last conjunct). -/
theorem classify_query_static_attribute_rule (re_search : String → String → Bool)
    (q f : String) :
    (py_strip q ≠ "" →
      (STATIC_ATTRIBUTE_PATTERNS.find? (fun pf => re_search pf.1 (py_lower q))).map
          (fun pf => pf.2) = some f →
      TEMPORAL_CHANGE_KEYWORDS.any (fun kw => py_in kw (py_lower q)) = false →
      classify_query re_search q = ⟨"FACTUAL", some f⟩)
    ∧ (TEMPORAL_CHANGE_KEYWORDS.any (fun kw => py_in kw (py_lower q)) = true →
      _check_static_attribute re_search q = none
      ∧ ((classify_query re_search q).type = "SEVERITY_ASSESSMENT"
        ∨ (classify_query re_search q).type = "COMPLEX"))
    ∧ (∀ q2 : String, q2 = q → classify_query re_search q2 = classify_query re_search q) := by
  refine ⟨?_, ?_, fun q2 h => by rw [h]⟩
  · intro hq hfind htem
    have hqe : ¬(q = "" ∨ py_strip q = "") := by
      rintro (rfl | h)
      · exact hq rfl
      · exact hq h
    have hstatic : _check_static_attribute re_search q = some f := by
      simp only [_check_static_attribute]
      rw [htem, static_attr_loop_of_temporal_false]
      exact hfind
    simp only [classify_query]
    rw [if_neg hqe, hstatic]
  · intro htem
    have hstatic : _check_static_attribute re_search q = none := by
      simp only [_check_static_attribute]
      rw [htem, static_attr_loop_of_temporal_true]
    refine ⟨hstatic, ?_⟩
    by_cases hqe : q = "" ∨ py_strip q = ""
    · simp only [classify_query]
      rw [if_pos hqe]
      exact Or.inr rfl
    · simp only [classify_query]
      rw [if_neg hqe, hstatic]
      by_cases hsev : _is_severity_assessment re_search q
      · rw [if_pos hsev]
        exact Or.inl rfl
      · rw [if_neg hsev]
        have htmp : _is_temporal_complex_query q = true := htem
        rw [htmp]
        simp only [if_true]
        exact Or.inr trivial

/-- Witness for C6: "What age is Sarah" with a matcher recognising the
`\bage\b` pattern on the lowered text classifies as FACTUAL/age. -/
theorem classify_query_static_attribute_rule_witness :
    py_strip "What age is Sarah" ≠ ""
    ∧ (STATIC_ATTRIBUTE_PATTERNS.find?
        (fun pf => (fun p t => p == "\\bage\\b" && t == "what age is sarah") pf.1
          (py_lower "What age is Sarah"))).map (fun pf => pf.2) = some "age"
    ∧ TEMPORAL_CHANGE_KEYWORDS.any
        (fun kw => py_in kw (py_lower "What age is Sarah")) = false
    ∧ classify_query (fun p t => p == "\\bage\\b" && t == "what age is sarah")
        "What age is Sarah" = ⟨"FACTUAL", some "age"⟩ :=
  ⟨by decide, by decide, by decide,
    (classify_query_static_attribute_rule
        (fun p t => p == "\\bage\\b" && t == "what age is sarah")
        "What age is Sarah" "age").1 (by decide) (by decide) (by decide)⟩

/-- In a list sorted by a total, transitive comparison, every element of
`take n` is related to every element of `drop n`. -/
theorem take_sorted_ge_drop {α : Type} (r : α → α → Prop) [DecidableRel r]
    (total : ∀ a b, r a b ∨ r b a) (trans : ∀ a b c, r a b → r b c → r a c)
    (l : List α) (n : Nat) :
    ∀ a ∈ (List.insertionSort r l).take n, ∀ b ∈ (List.insertionSort r l).drop n, r a b := by
  haveI : IsTotal α r := ⟨total⟩
  haveI : IsTrans α r := ⟨fun a b c => trans a b c⟩
  have hs : List.Pairwise r (List.insertionSort r l) := List.sorted_insertionSort r l
  have hsplit : List.Pairwise r ((List.insertionSort r l).take n ++ (List.insertionSort r l).drop n) := by
    rwa [List.take_append_drop]
  exact (List.pairwise_append.mp hsplit).2.2

/-- **C2.** The weighted retriever returns a chronologically non-decreasing
(by parsed visit date) subset of the input whose members all have total
relevance score ≥ the total score of every unselected input record (ties may
fall either way under the stable sort, which is exactly the "modulo the
tie-break" caveat). -/
theorem get_weighted_history_spec (now : DateT) (records : List HistoryRecord)
    (limit : Nat) :
    List.Pairwise
      (fun a b : HistoryRecord =>
        DateT.le (_parse_date a.visit_date) (_parse_date b.visit_date))
      (get_weighted_history now records limit).1
    ∧ (∀ r ∈ (get_weighted_history now records limit).1, r ∈ records)
    ∧ (∀ r ∈ (get_weighted_history now records limit).1,
        ∀ s ∈ records, s ∉ (get_weighted_history now records limit).1 →
          calculate_relevance_score now s ≤ calculate_relevance_score now r) := by
  by_cases hrec : records = []
  · subst hrec
    refine ⟨?_, ?_, ?_⟩ <;> simp [get_weighted_history]
  · have hgw : (get_weighted_history now records limit).1
        = (List.insertionSort
            (fun a b : ScoredRecord =>
              DateT.le (_parse_date a.visit_date) (_parse_date b.visit_date))
            ((List.insertionSort (fun a b : ScoredRecord => b.total_score ≤ a.total_score)
              (records.map (fun record =>
                { record := record
                  recency_score := _calculate_recency_score now record.visit_date
                  clinical_score := _calculate_clinical_signal_score record.notes record.treatment
                  total_score := calculate_relevance_score now record
                  visit_date := record.visit_date : ScoredRecord }))).take limit)).map
            (fun item => item.record) := by
      simp only [get_weighted_history]
      rw [if_neg hrec]
    rw [hgw]
    set mkitem : HistoryRecord → ScoredRecord := fun record =>
      { record := record
        recency_score := _calculate_recency_score now record.visit_date
        clinical_score := _calculate_clinical_signal_score record.notes record.treatment
        total_score := calculate_relevance_score now record
        visit_date := record.visit_date } with hmkitem
    set scored := records.map mkitem with hscored
    set sorted1 := List.insertionSort
      (fun a b : ScoredRecord => b.total_score ≤ a.total_score) scored with hsorted1
    set top := sorted1.take limit with htop
    set out := List.insertionSort
      (fun a b : ScoredRecord =>
        DateT.le (_parse_date a.visit_date) (_parse_date b.visit_date)) top with hout
    have hmem_out_top : ∀ x ∈ out, x ∈ top := fun x hx =>
      (List.perm_insertionSort _ top).subset hx
    have hmem_top_sorted : ∀ x ∈ top, x ∈ sorted1 := fun x hx =>
      List.take_subset _ _ hx
    have hmem_sorted_scored : ∀ x ∈ sorted1, x ∈ scored := fun x hx =>
      (List.perm_insertionSort _ scored).subset hx
    have hgood : ∀ x ∈ scored,
        x.visit_date = x.record.visit_date
        ∧ x.total_score = calculate_relevance_score now x.record := by
      intro x hx
      rcases List.mem_map.mp hx with ⟨rec, hrecmem, rfl⟩
      exact ⟨rfl, rfl⟩
    have hgood_out : ∀ x ∈ out,
        x.visit_date = x.record.visit_date
        ∧ x.total_score = calculate_relevance_score now x.record :=
      fun x hx => hgood x (hmem_sorted_scored _ (hmem_top_sorted _ (hmem_out_top x hx)))
    refine ⟨?_, ?_, ?_⟩
    · rw [List.pairwise_map]
      have hsorted_out : List.Pairwise
          (fun a b : ScoredRecord =>
            DateT.le (_parse_date a.visit_date) (_parse_date b.visit_date)) out := by
        haveI : IsTotal ScoredRecord
            (fun a b => DateT.le (_parse_date a.visit_date) (_parse_date b.visit_date)) :=
          ⟨fun a b => DateT.le_total' _ _⟩
        haveI : IsTrans ScoredRecord
            (fun a b => DateT.le (_parse_date a.visit_date) (_parse_date b.visit_date)) :=
          ⟨fun a b c hab hbc => DateT.le_trans' _ _ _ hab hbc⟩
        exact List.sorted_insertionSort _ top
      refine List.Pairwise.imp_of_mem ?_ hsorted_out
      intro a b ha hb hr
      have hva := (hgood_out a ha).1
      have hvb := (hgood_out b hb).1
      rwa [hva, hvb] at hr
    · intro r hr
      rcases List.mem_map.mp hr with ⟨x, hx, rfl⟩
      have hx' := hmem_sorted_scored _ (hmem_top_sorted _ (hmem_out_top x hx))
      rcases List.mem_map.mp hx' with ⟨rec, hrecmem, rfl⟩
      exact hrecmem
    · intro r hr s hs hnot
      rcases List.mem_map.mp hr with ⟨a, ha, rfl⟩
      have hatop : a ∈ top := hmem_out_top a ha
      have hms : mkitem s ∈ sorted1 :=
        (List.perm_insertionSort _ scored).mem_iff.mpr (List.mem_map_of_mem mkitem hs)
      have hnot_top : mkitem s ∉ top := by
        intro hcontra
        apply hnot
        have hin_out : mkitem s ∈ out := (List.perm_insertionSort _ top).mem_iff.mpr hcontra
        exact List.mem_map.mpr ⟨mkitem s, hin_out, rfl⟩
      have hdrop : mkitem s ∈ sorted1.drop limit := by
        have hsplit : mkitem s ∈ sorted1.take limit ++ sorted1.drop limit := by
          rwa [List.take_append_drop]
        rcases List.mem_append.mp hsplit with h | h
        · exact absurd h hnot_top
        · exact h
      have hdom := take_sorted_ge_drop
        (fun a b : ScoredRecord => b.total_score ≤ a.total_score)
        (fun a b => le_total _ _)
        (fun x y z hxy hyz => le_trans hyz hxy)
        scored limit a hatop (mkitem s) hdrop
      have hdom2 : (mkitem s).total_score ≤ a.total_score := hdom
      have h2 : a.total_score = calculate_relevance_score now a.record :=
        (hgood a (hmem_sorted_scored _ (hmem_top_sorted _ hatop))).2
      have h1 : (mkitem s).total_score = calculate_relevance_score now s := rfl
      rw [h1, h2] at hdom2
      exact hdom2
/-- Three records with pairwise distinct total scores (3.4, 0.4, 5.6 for a
"now" of 2023-06-15). -/
def weighted_witness_records : List HistoryRecord :=
  [⟨1, 1, some "2023-06-01", some "stable", none, none⟩,
   ⟨2, 1, some "2020-01-01", none, none, none⟩,
   ⟨3, 1, some "2023-05-01", some "surgery", none, none⟩]

unseal Rat.mul Rat.add Rat.sub Rat.ofScientific in
/-- Witness for C2 at a concrete input: with limit 2, the record scoring 0.4
is left out and every selected record dominates it. -/
theorem get_weighted_history_spec_witness :
    (⟨1, 1, some "2023-06-01", some "stable", none, none⟩ : HistoryRecord)
      ∈ (get_weighted_history ⟨2023, 6, 15⟩ weighted_witness_records 2).1
    ∧ (⟨2, 1, some "2020-01-01", none, none, none⟩ : HistoryRecord)
        ∈ weighted_witness_records
    ∧ (⟨2, 1, some "2020-01-01", none, none, none⟩ : HistoryRecord)
        ∉ (get_weighted_history ⟨2023, 6, 15⟩ weighted_witness_records 2).1
    ∧ calculate_relevance_score ⟨2023, 6, 15⟩ ⟨2, 1, some "2020-01-01", none, none, none⟩
        ≤ calculate_relevance_score ⟨2023, 6, 15⟩ ⟨1, 1, some "2023-06-01", some "stable", none, none⟩ :=
  ⟨by decide, by decide, by decide,
    (get_weighted_history_spec ⟨2023, 6, 15⟩ weighted_witness_records 2).2.2
      ⟨1, 1, some "2023-06-01", some "stable", none, none⟩ (by decide)
      ⟨2, 1, some "2020-01-01", none, none, none⟩ (by decide) (by decide)⟩

/-- Case analysis of the possessive strategy: its outcome is `POSSESSIVE`
(with a context write), `NONE`, or `AMBIGUOUS`, the latter two leaving the
context untouched. -/
theorem resolve_possessive_strategy_cases (q : String) (db : List Patient)
    (ctx : ConversationContext) :
    (∃ p name, extract_possessive_name q = some name
      ∧ _find_patients_by_name name db = [p]
      ∧ resolve_possessive_strategy q db ctx
          = ((some p, "POSSESSIVE"),
              ctx.set_active_patient p.patient_id p.name p.gender none))
    ∨ resolve_possessive_strategy q db ctx = ((none, "NONE"), ctx)
    ∨ resolve_possessive_strategy q db ctx = ((none, "AMBIGUOUS"), ctx) := by
  unfold resolve_possessive_strategy
  split
  next nm heq =>
    split
    next p hfind => exact Or.inl ⟨p, nm, heq, hfind, rfl⟩
    next hfind => exact Or.inr (Or.inl rfl)
    next p p2 rest hfind => exact Or.inr (Or.inr rfl)
  next heq => exact Or.inr (Or.inl rfl)

/-- Case analysis of `resolve_patient_reference`: either the call lands in the
possessive strategy, or it is one of the three pronoun-branch outcomes, which
leave the context untouched. -/
theorem resolve_patient_reference_cases (q : String) (db : List Patient)
    (ctx : ConversationContext) :
    resolve_patient_reference q db ctx = resolve_possessive_strategy q db ctx
    ∨ ((resolve_patient_reference q db ctx).2 = ctx
        ∧ ((resolve_patient_reference q db ctx).1.2 = "PRONOUN"
          ∨ (resolve_patient_reference q db ctx).1.2 = "GENDER_MISMATCH"
          ∨ (resolve_patient_reference q db ctx).1.2 = "NO_CONTEXT")) := by
  unfold resolve_patient_reference
  split
  next g heq =>
    split
    next hact =>
      split
      next p hfind =>
        split
        next hchk => exact Or.inr ⟨rfl, Or.inl rfl⟩
        next hchk => exact Or.inr ⟨rfl, Or.inr (Or.inl rfl)⟩
      next hfind => exact Or.inl rfl
    next hact => exact Or.inr ⟨rfl, Or.inr (Or.inr rfl)⟩
  next heq => exact Or.inl rfl

/-- **C4.** A pronoun query while the Context Store holds an active patient
that the store still resolves (by the stored id) succeeds with outcome
`PRONOUN`, returning exactly that patient, if and only if the pronoun's gender
class is compatible with the patient's recorded gender or the gender is
unrecorded; otherwise the outcome is `GENDER_MISMATCH` with no patient.  The
resolver never returns a different patient on this path. -/
theorem resolver_pronoun_gender_gate (q : String) (db : List Patient)
    (ctx : ConversationContext) (g : String) (p : Patient)
    (hg : contains_pronoun q = some g)
    (hactive : ctx.has_active_patient = true)
    (hfind : _find_patient_by_id ctx.last_patient_id db = some p) :
    (_check_gender_match g p.gender = true →
        resolve_patient_reference q db ctx = ((some p, "PRONOUN"), ctx))
    ∧ (_check_gender_match g p.gender = false →
        resolve_patient_reference q db ctx = ((none, "GENDER_MISMATCH"), ctx))
    ∧ (_check_gender_match g p.gender = true ↔
        (p.gender = none ∨ p.gender = some ""
          ∨ ∃ s, p.gender = some s
              ∧ ((g = "male" ∧ (py_lower s = "male" ∨ py_lower s = "m" ∨ py_lower s = "man"))
                ∨ (g = "female" ∧ (py_lower s = "female" ∨ py_lower s = "f" ∨ py_lower s = "woman")))))
    ∧ ((resolve_patient_reference q db ctx).1.1 = none
        ∨ (resolve_patient_reference q db ctx).1.1 = some p) := by
  have hres : resolve_patient_reference q db ctx
      = if _check_gender_match g p.gender = true then ((some p, "PRONOUN"), ctx)
        else ((none, "GENDER_MISMATCH"), ctx) := by
    simp only [resolve_patient_reference, hg, hactive, hfind, if_true]
  refine ⟨fun h => by rw [hres, if_pos h], fun h => by rw [hres, h]; simp, ?_, ?_⟩
  · cases hpg : p.gender with
    | none => simp [_check_gender_match]
    | some s =>
      by_cases hs : s = ""
      · subst hs
        simp [_check_gender_match]
      · by_cases hm : g = "male"
        · subst hm
          simp only [_check_gender_match, if_neg hs]
          simp [hs, Bool.or_eq_true]
          tauto
        · by_cases hf : g = "female"
          · subst hf
            simp only [_check_gender_match, if_neg hs]
            rw [if_neg (by decide)]
            simp [hs, Bool.or_eq_true]
            tauto
          · simp only [_check_gender_match, if_neg hs, if_neg hm, if_neg hf]
            simp [hs, hm, hf]
  · rw [hres]
    by_cases hchk : _check_gender_match g p.gender = true
    · rw [if_pos hchk]; exact Or.inr rfl
    · rw [if_neg hchk]; exact Or.inl rfl

/-- Witness for C4 at a concrete input: `"how is she"` against an active
female patient resolves via `PRONOUN` to that very patient. -/
theorem resolver_pronoun_gender_gate_witness :
    contains_pronoun "how is she" = some "female"
    ∧ (⟨some 1, some "Jane Doe", some "female", none⟩ :
        ConversationContext).has_active_patient = true
    ∧ _find_patient_by_id (some 1)
        [⟨1, "Jane Doe", none, some "female", none, none⟩]
        = some ⟨1, "Jane Doe", none, some "female", none, none⟩
    ∧ resolve_patient_reference "how is she"
        [⟨1, "Jane Doe", none, some "female", none, none⟩]
        ⟨some 1, some "Jane Doe", some "female", none⟩
      = ((some ⟨1, "Jane Doe", none, some "female", none, none⟩, "PRONOUN"),
          ⟨some 1, some "Jane Doe", some "female", none⟩) :=
  ⟨by decide, by decide, by decide,
    (resolver_pronoun_gender_gate "how is she"
        [⟨1, "Jane Doe", none, some "female", none, none⟩]
        ⟨some 1, some "Jane Doe", some "female", none⟩ "female"
        ⟨1, "Jane Doe", none, some "female", none, none⟩
        (by decide) (by decide) (by decide)).1 (by decide)⟩

/-- Modelled from the spec (§4.2 step 2 together with the §6 collaborator
contract `findByNameExact/Prefix/Suffix`): the tiered possessive-name search
the spec describes — case-insensitive exact matches first, then (if none)
prefix matches, then (if none) suffix matches.  Used only to compare the
spec's described behaviour with `_find_patients_by_name`. -/
def spec_find_patients_by_name (name : String) (db : List Patient) : List Patient :=
  if name = "" then []
  else
    let n := py_strip (py_lower name)
    let exact := db.filter (fun p => py_lower p.name == n)
    if exact ≠ [] then exact
    else
      let pre := db.filter (fun p => chars_startswith n.data (py_lower p.name).data)
      if pre ≠ [] then pre
      else db.filter (fun p => chars_startswith n.data.reverse (py_lower p.name).data.reverse)

/-- The straight-apostrophe possessive query `"anna's condition"`. -/
def possessive_query_anna : String := "anna" ++ (⟨[apos_std]⟩ : String) ++ "s condition"

/-- A store with a prefix match ("Anna Smith") and an interior substring match
("Joanna Lee") for the candidate name `anna`. -/
def two_anna_db : List Patient :=
  [⟨1, "Anna Smith", none, none, none, none⟩,
   ⟨2, "Joanna Lee", none, none, none, none⟩]

/-- The empty conversation context. -/
def empty_context : ConversationContext := ⟨none, none, none, none⟩

/-- **C8 counterexample.** On the query `"anna's condition"` against a store
holding "Anna Smith" and "Joanna Lee": under the claimed exact-then-prefix-
then-suffix tiering the candidate `anna` has exactly one match (the prefix
match "Anna Smith"), so the claim requires outcome `POSSESSIVE` with that
patient; the code instead searches `%anna%` (substring anywhere), finds both
patients, and returns `AMBIGUOUS` with no patient. -/
theorem resolver_possessive_tiering_counterexample :
    (resolve_patient_reference possessive_query_anna two_anna_db empty_context).1
      = (none, "AMBIGUOUS")
    ∧ extract_possessive_name possessive_query_anna = some "anna"
    ∧ spec_find_patients_by_name "anna" two_anna_db
      = [⟨1, "Anna Smith", none, none, none, none⟩] := by
  refine ⟨by decide, by decide, by decide⟩

/-- **C8 (amended).** For every query with no gendered pronoun and a possessive
form `<word>'s`, the resolver extracts the word as the candidate name and
searches the patient store case-insensitively for exact full-name matches
first and, only if there is none, for names containing the candidate as a
substring **anywhere** (not prefix-then-suffix tiers); zero matches yield
`NONE`, exactly one yields `POSSESSIVE` with the Context Store updated, and
more than one yields `AMBIGUOUS`. -/
theorem resolver_possessive_exact_then_substring (q : String) (db : List Patient)
    (ctx : ConversationContext) (name : String)
    (hpr : contains_pronoun q = none)
    (hex : extract_possessive_name q = some name) :
    (_find_patients_by_name name db = [] →
        resolve_patient_reference q db ctx = ((none, "NONE"), ctx))
    ∧ (∀ p, _find_patients_by_name name db = [p] →
        resolve_patient_reference q db ctx
          = ((some p, "POSSESSIVE"),
              ctx.set_active_patient p.patient_id p.name p.gender none))
    ∧ (2 ≤ (_find_patients_by_name name db).length →
        resolve_patient_reference q db ctx = ((none, "AMBIGUOUS"), ctx))
    ∧ (name ≠ "" →
        ((∃ p ∈ db,
            like_match_exact (py_strip (py_lower name)).data (py_lower p.name).data = true) →
          _find_patients_by_name name db
            = db.filter (fun p =>
                like_match_exact (py_strip (py_lower name)).data (py_lower p.name).data))
        ∧ ((∀ p ∈ db,
            ¬ like_match_exact (py_strip (py_lower name)).data (py_lower p.name).data = true) →
          _find_patients_by_name name db
            = db.filter (fun p =>
                like_match_sub (py_strip (py_lower name)).data (py_lower p.name).data))) := by
  have hres : resolve_patient_reference q db ctx = resolve_possessive_strategy q db ctx := by
    simp only [resolve_patient_reference, hpr]
  have hstrat : ∀ l, _find_patients_by_name name db = l →
      resolve_possessive_strategy q db ctx
        = (match l with
           | [patient] =>
              ((some patient, "POSSESSIVE"),
                ctx.set_active_patient patient.patient_id patient.name patient.gender none)
           | [] => ((none, "NONE"), ctx)
           | _ :: _ :: _ => ((none, "AMBIGUOUS"), ctx)) := by
    intro l hl
    simp only [resolve_possessive_strategy, hex, hl]
  refine ⟨?_, ?_, ?_, ?_⟩
  · intro h
    rw [hres, hstrat [] h]
  · intro p h
    rw [hres, hstrat [p] h]
  · intro h
    rcases hl : _find_patients_by_name name db with _ | ⟨p, _ | ⟨p2, rest⟩⟩
    · rw [hl] at h; simp at h
    · rw [hl] at h; simp at h
    · rw [hres, hstrat _ hl]
  · intro hname
    constructor
    · rintro ⟨p, hp, hlk⟩
      unfold _find_patients_by_name
      rw [if_neg hname]
      rw [if_pos]
      intro hnil
      rw [List.filter_eq_nil_iff] at hnil
      exact hnil p hp hlk
    · intro hall
      unfold _find_patients_by_name
      rw [if_neg hname]
      rw [if_neg]
      simp only [ne_eq, not_not]
      rw [List.filter_eq_nil_iff]
      intro p hp
      exact fun hlk => hall p hp hlk

/-- Witness for the amended C8 at the counterexample input: two substring
matches for `anna`, hence `AMBIGUOUS`. -/
theorem resolver_possessive_exact_then_substring_witness :
    contains_pronoun possessive_query_anna = none
    ∧ extract_possessive_name possessive_query_anna = some "anna"
    ∧ 2 ≤ (_find_patients_by_name "anna" two_anna_db).length
    ∧ resolve_patient_reference possessive_query_anna two_anna_db empty_context
        = ((none, "AMBIGUOUS"), empty_context) :=
  ⟨by decide, by decide, by decide,
    (resolver_possessive_exact_then_substring possessive_query_anna two_anna_db
        empty_context "anna" (by decide) (by decide)).2.2.1 (by decide)⟩

/-- A context whose stored name is stale with respect to the store. -/
def stale_name_context : ConversationContext := ⟨some 1, some "Old Name", none, none⟩

/-- Patient 1 as currently recorded in the store (renamed since the context
was written). -/
def renamed_patient : Patient := ⟨1, "New Name", none, some "female", none, none⟩

/-- **C9 counterexample.** A pronoun resolution (outcome `PRONOUN`, a
non-ambiguous, non-mismatch resolution returning a patient) performs **no**
context write: with the stored name stale ("Old Name") and the store now
holding "New Name" for the same id, the context after the call still carries
"Old Name" and differs from what `set_active_patient` with the resolved
patient's data would have produced. -/
theorem resolver_pronoun_no_write_counterexample :
    (resolve_patient_reference "how is her condition" [renamed_patient]
        stale_name_context).1 = (some renamed_patient, "PRONOUN")
    ∧ (resolve_patient_reference "how is her condition" [renamed_patient]
        stale_name_context).2 = stale_name_context
    ∧ stale_name_context.last_patient_name = some "Old Name"
    ∧ renamed_patient.name = "New Name"
    ∧ (resolve_patient_reference "how is her condition" [renamed_patient]
        stale_name_context).2
      ≠ stale_name_context.set_active_patient renamed_patient.patient_id
          renamed_patient.name renamed_patient.gender none := by
  refine ⟨by decide, by decide, by decide, by decide, by decide⟩

/-- **C9 (amended).** Exactly the `POSSESSIVE` resolutions of
`resolve_patient_reference` write the Context Store (with the resolved
patient's id, name and gender); every other outcome — including a successful
`PRONOUN` resolution — leaves the Context Store unchanged. -/
theorem resolver_context_write_on_possessive_only (q : String) (db : List Patient)
    (ctx : ConversationContext) :
    ((resolve_patient_reference q db ctx).1.2 = "POSSESSIVE" →
      ∃ p, (resolve_patient_reference q db ctx).1.1 = some p
        ∧ (resolve_patient_reference q db ctx).2
            = ctx.set_active_patient p.patient_id p.name p.gender none)
    ∧ ((resolve_patient_reference q db ctx).1.2 ≠ "POSSESSIVE" →
      (resolve_patient_reference q db ctx).2 = ctx) := by
  rcases resolve_patient_reference_cases q db ctx with hcase | ⟨hctx, hout⟩
  · rcases resolve_possessive_strategy_cases q db ctx with ⟨p, nm, hex, hfind, hs⟩ | hs | hs
    · refine ⟨fun _ => ⟨p, ?_, ?_⟩, fun hne => absurd ?_ hne⟩
      · rw [hcase, hs]
      · rw [hcase, hs]
      · rw [hcase, hs]
    · constructor
      · intro hposs
        rw [hcase, hs] at hposs
        exact absurd hposs (show ("NONE" : String) ≠ "POSSESSIVE" by decide)
      · intro _
        rw [hcase, hs]
    · constructor
      · intro hposs
        rw [hcase, hs] at hposs
        exact absurd hposs (show ("AMBIGUOUS" : String) ≠ "POSSESSIVE" by decide)
      · intro _
        rw [hcase, hs]
  · constructor
    · intro hposs
      rcases hout with h | h | h <;> rw [hposs] at h <;> exact absurd h (by decide)
    · intro _
      exact hctx

/-- Witness for the amended C9: a possessive resolution that writes the
context, at a concrete input. -/
theorem resolver_context_write_on_possessive_only_witness :
    (resolve_patient_reference ("sarah" ++ (⟨[apos_std]⟩ : String) ++ "s age")
        [⟨2, "Sarah Jones", none, some "female", none, none⟩] empty_context).1.2
      = "POSSESSIVE"
    ∧ ∃ p, (resolve_patient_reference ("sarah" ++ (⟨[apos_std]⟩ : String) ++ "s age")
        [⟨2, "Sarah Jones", none, some "female", none, none⟩] empty_context).1.1
          = some p
        ∧ (resolve_patient_reference ("sarah" ++ (⟨[apos_std]⟩ : String) ++ "s age")
            [⟨2, "Sarah Jones", none, some "female", none, none⟩] empty_context).2
          = empty_context.set_active_patient p.patient_id p.name p.gender none :=
  ⟨by decide,
    (resolver_context_write_on_possessive_only
        ("sarah" ++ (⟨[apos_std]⟩ : String) ++ "s age")
        [⟨2, "Sarah Jones", none, some "female", none, none⟩] empty_context).1
      (by decide)⟩

/-- **C10.** A gendered-pronoun query while the Context Store reports an
active patient whose stored id no longer resolves in the store yields neither
`PRONOUN` nor `GENDER_MISMATCH` nor `NO_CONTEXT`: control falls through to the
possessive-name strategy, and absent a possessive form the outcome is `NONE`
with no patient and an unchanged context. -/
theorem resolver_stale_id_falls_through (q : String) (db : List Patient)
    (ctx : ConversationContext) (g : String)
    (hg : contains_pronoun q = some g)
    (hactive : ctx.has_active_patient = true)
    (hstale : _find_patient_by_id ctx.last_patient_id db = none) :
    resolve_patient_reference q db ctx = resolve_possessive_strategy q db ctx
    ∧ (resolve_patient_reference q db ctx).1.2 ≠ "PRONOUN"
    ∧ (resolve_patient_reference q db ctx).1.2 ≠ "GENDER_MISMATCH"
    ∧ (resolve_patient_reference q db ctx).1.2 ≠ "NO_CONTEXT"
    ∧ (extract_possessive_name q = none →
        resolve_patient_reference q db ctx = ((none, "NONE"), ctx)) := by
  have h1 : resolve_patient_reference q db ctx = resolve_possessive_strategy q db ctx := by
    simp only [resolve_patient_reference, hg, hactive, hstale, if_true]
  have houtcomes : (resolve_possessive_strategy q db ctx).1.2 = "POSSESSIVE"
      ∨ (resolve_possessive_strategy q db ctx).1.2 = "NONE"
      ∨ (resolve_possessive_strategy q db ctx).1.2 = "AMBIGUOUS" := by
    rcases resolve_possessive_strategy_cases q db ctx with ⟨p, nm, _, _, hs⟩ | hs | hs
    · rw [hs]; exact Or.inl rfl
    · rw [hs]; exact Or.inr (Or.inl rfl)
    · rw [hs]; exact Or.inr (Or.inr rfl)
  refine ⟨h1, ?_, ?_, ?_, ?_⟩
  · rw [h1]
    rcases houtcomes with h | h | h <;> rw [h] <;> decide
  · rw [h1]
    rcases houtcomes with h | h | h <;> rw [h] <;> decide
  · rw [h1]
    rcases houtcomes with h | h | h <;> rw [h] <;> decide
  · intro hex
    rw [h1]
    simp only [resolve_possessive_strategy, hex]

/-- Witness for C10: pronoun query, active context id 99, empty store, no
possessive form — the outcome is `NONE`. -/
theorem resolver_stale_id_falls_through_witness :
    contains_pronoun "how is he" = some "male"
    ∧ (⟨some 99, some "Ghost", none, none⟩ :
        ConversationContext).has_active_patient = true
    ∧ _find_patient_by_id (some 99) ([] : List Patient) = none
    ∧ extract_possessive_name "how is he" = none
    ∧ resolve_patient_reference "how is he" ([] : List Patient)
        ⟨some 99, some "Ghost", none, none⟩
      = ((none, "NONE"), ⟨some 99, some "Ghost", none, none⟩) :=
  ⟨by decide, by decide, by decide, by decide,
    (resolver_stale_id_falls_through "how is he" ([] : List Patient)
        ⟨some 99, some "Ghost", none, none⟩ "male"
        (by decide) (by decide) (by decide)).2.2.2.2 (by decide)⟩

/-- **C3.** In every response built by `build_response` the confidence label is
determined solely by the outcome type through the fixed lookup
`CONFIDENCE_MAP`: FACTUAL → High, SUMMARY cache-hit → High, SUMMARY cache-miss
→ Medium, COMPLEX → Medium, SEVERITY_ASSESSMENT → Medium, REFUSAL → Low; no
other (outcome, confidence) combination occurs. -/
theorem build_response_confidence_fixed_lookup :
    (∀ (answer : String) (rt : ResponseType) (evidence : List String)
        (timing_ms : Option ℚ),
      (build_response answer rt evidence timing_ms).confidence
        = (CONFIDENCE_MAP rt).value)
    ∧ CONFIDENCE_MAP .FACTUAL = .HIGH
    ∧ CONFIDENCE_MAP .SUMMARY_HIT = .HIGH
    ∧ CONFIDENCE_MAP .SUMMARY_MISS = .MEDIUM
    ∧ CONFIDENCE_MAP .COMPLEX = .MEDIUM
    ∧ CONFIDENCE_MAP .SEVERITY_ASSESSMENT = .MEDIUM
    ∧ CONFIDENCE_MAP .REFUSAL = .LOW := by
  refine ⟨fun answer rt evidence timing_ms => rfl, rfl, rfl, rfl, rfl, rfl, rfl⟩

/-- **C7.** On the COMPLEX path, a failure of the external generator — a raised
exception or an empty/whitespace-only output — is caught at the call site and
turned into a refusal response with confidence Low and the refusal evidence
code `insufficient data for analysis`; a non-empty output is wrapped as an
ordinary COMPLEX response.  The result is a total function of the *first*
generator outcome only (no exception propagates, and no retry consumes a
second outcome). -/
theorem chat_complex_generation_failure_refusal {ε : Type}
    (gen : ℕ → Except ε String) (elapsed_ms : ℚ) :
    (∀ e, gen 0 = .error e →
        (chat_complex_generation gen elapsed_ms).confidence = "Low"
      ∧ (chat_complex_generation gen elapsed_ms).evidence
          = ["insufficient data for analysis"])
    ∧ (∀ s, gen 0 = .ok s → py_strip s = "" →
        (chat_complex_generation gen elapsed_ms).confidence = "Low"
      ∧ (chat_complex_generation gen elapsed_ms).evidence
          = ["insufficient data for analysis"])
    ∧ (∀ s, gen 0 = .ok s → py_strip s ≠ "" →
        chat_complex_generation gen elapsed_ms
          = build_response s .COMPLEX get_complex_evidence (some elapsed_ms))
    ∧ (∀ gen' : ℕ → Except ε String, gen' 0 = gen 0 →
        chat_complex_generation gen' elapsed_ms
          = chat_complex_generation gen elapsed_ms) := by
  refine ⟨?_, ?_, ?_, ?_⟩
  · intro e h
    simp only [chat_complex_generation, h]
    exact ⟨rfl, rfl⟩
  · intro s h htrim
    simp only [chat_complex_generation, h]
    rw [if_pos (Or.inr htrim)]
    exact ⟨rfl, rfl⟩
  · intro s h htrim
    have hs : ¬(s = "" ∨ py_strip s = "") := by
      rintro (rfl | hc)
      · exact htrim (by decide)
      · exact htrim hc
    simp only [chat_complex_generation, h]
    rw [if_neg hs]
  · intro gen' h
    simp only [chat_complex_generation, h]

/-- Witness for C7 at a concrete input: a generator whose first call raises. -/
theorem chat_complex_generation_failure_refusal_witness :
    ((fun _ => Except.error () : ℕ → Except Unit String) 0 = .error ())
    ∧ (chat_complex_generation (fun _ => Except.error () : ℕ → Except Unit String)
        0).confidence = "Low"
    ∧ (chat_complex_generation (fun _ => Except.error () : ℕ → Except Unit String)
        0).evidence = ["insufficient data for analysis"] :=
  ⟨rfl,
    ((chat_complex_generation_failure_refusal
        (fun _ => Except.error ()) 0).1 () rfl).1,
    ((chat_complex_generation_failure_refusal
        (fun _ => Except.error ()) 0).1 () rfl).2⟩

end AiHealthAgent
